import Mathlib

/-!
Verification of the hybrid-energy-system sizing components
(`System Components/` of the repository): the PV-panel irradiance and
power engine, the annuity cost model, the grid/load lookups, the battery
parameter invariant and the system-level cost aggregation.

Python floats are modelled by `ℚ` where the claims are about exact
branch/bookkeeping behaviour, and by `ℝ` where the claims involve
transcendental functions or limits.  Python exceptions are modelled by
`Except PyErr`.  Python's float division by zero raises
`ZeroDivisionError`; where a division's denominator can vanish the
embedding guards it explicitly, since Lean's `/` would silently return 0.
-/

/-- The Python exception kinds the embedded code can raise. -/
inductive PyErr where
  | valueError
  | keyError
  | attributeError
  | typeError
  | notImplementedError
  | zeroDivisionError
deriving DecidableEq, Repr

/-! ## Diffuse fraction (pv_panel.py, `radiation_slope_surface`, lines 193-198)

```python
if clearness_index <= 0.35:
    Ro_d = 1 - 0.249 * clearness_index
elif clearness_index > 0.75:
    Ro_d = 0.177
else:
    Ro_d = 1.557 - 1.84 * clearness_index
```
-/

/-- Diffuse fraction of horizontal radiation as a function of the clearness
index, exactly the three-branch conditional of `radiation_slope_surface`.
Polymorphic so that the same definition serves the exact (`ℚ`) and the
analytic (`ℝ`) developments. -/
def Ro_d {α : Type} [LinearOrderedField α] (clearness_index : α) : α :=
  if clearness_index ≤ 0.35 then 1 - 0.249 * clearness_index
  else if clearness_index > 0.75 then 0.177
  else 1.557 - 1.84 * clearness_index

/-! ## Annuity cost model (pv_panel.py lines 94-109, battery.py lines 37-44) -/

/-- The annuity expression
`(cost * interest_rate) / (1 - (1 + interest_rate) ** -lifetime)`
shared verbatim by `PVPanel.calculate_investment_cost` and
`Battery.investment_cost`. -/
def annuityFormula {α : Type} [LinearOrderedField α] (cost : α) (lifetime : ℕ)
    (interest_rate : α) : α :=
  (cost * interest_rate) / (1 - (1 + interest_rate) ^ (-(lifetime : ℤ)))

/-- Model of `PVPanel.calculate_investment_cost`: validates
`0 < interest_rate < 1` (raising `ValueError` otherwise) and then returns the
annuity expression.  The inner division raises `ZeroDivisionError` in Python
when its denominator is zero, hence the explicit guard. -/
def calculate_investment_cost (cost : ℚ) (lifetime : ℕ) (interest_rate : ℚ) :
    Except PyErr ℚ :=
  if ¬(0 < interest_rate ∧ interest_rate < 1) then .error .valueError
  else if (1 - (1 + interest_rate) ^ (-(lifetime : ℤ))) = 0 then
    .error .zeroDivisionError
  else .ok (annuityFormula cost lifetime interest_rate)

/-- Model of `Battery.investment_cost`: the same annuity expression with NO validation
of the interest rate.  The only way it can raise is Python's
`ZeroDivisionError` when the denominator vanishes. -/
def batteryInvestmentCost (cost : ℚ) (lifetime : ℕ) (interest_rate : ℚ) :
    Except PyErr ℚ :=
  if (1 - (1 + interest_rate) ^ (-(lifetime : ℤ))) = 0 then
    .error .zeroDivisionError
  else .ok (annuityFormula cost lifetime interest_rate)

/-! ## HDKR tilted-surface radiation (pv_panel.py, `radiation_slope_surface`) -/

/-- Model of `np.radians`. -/
noncomputable def radians (x : ℝ) : ℝ := x * (Real.pi / 180)

/-- Model of `np.degrees`. -/
noncomputable def degrees (x : ℝ) : ℝ := x * (180 / Real.pi)

/-- Model of `PVPanel.radiation_slope_surface`, translated line by line over `ℝ`.
The Python default `tilt_angle=None` is modelled by `Option ℝ`; the other
defaulted parameters are ordinary arguments here (their default values are
irrelevant to the claims, which quantify over them). -/
noncomputable def radiation_slope_surface (day : ℝ) (time : ℝ)
    (G_horizontal_radiation : ℝ) (solar_zenith : ℝ) (longitude : ℝ)
    (latitude : ℝ) (timezone_index : ℝ) (tilt_angle : Option ℝ)
    (surface_azim : ℝ) (ground_reflectance : ℝ) : ℝ :=
  let tilt := tilt_angle.getD latitude
  if G_horizontal_radiation = 0 ∨ solar_zenith < 0 then 0
  else
    let longit_zone := 15 * timezone_index
    let b := (day - 1) * (360 / 365)
    let e := 229.2 * (0.000075 + 0.001868 * Real.cos (radians b) -
      0.032077 * Real.sin (radians b) - 0.014615 * Real.cos (radians (2 * b)) -
      0.04089 * Real.sin (radians (2 * b)))
    let t_solar := time + (4 * (longitude - longit_zone) + e) / 60
    let delta := 23.45 * Real.sin (radians (360 * (284 + day) / 365))
    let sign : ℝ := if t_solar ≥ 12 then 1 else -1
    let solar_azimuth := sign * |degrees (Real.arccos
      ((Real.cos (radians solar_zenith) * Real.sin (radians latitude) -
        Real.sin (radians delta)) /
       (Real.sin (radians solar_zenith) * Real.cos (radians latitude))))|
    let theta := Real.cos (radians solar_zenith) * Real.cos (radians tilt) +
      Real.sin (radians solar_zenith) * Real.sin (radians tilt) *
        Real.cos (radians (solar_azimuth - surface_azim))
    let Gsc : ℝ := 1367
    let solar_radiation := Gsc * (1.000110 + 0.034221 * Real.cos (radians b) +
      0.001280 * Real.sin (radians b) + 0.000719 * Real.cos (radians (2 * b)) +
      0.000077 * Real.sin (radians (2 * b)))
    let clearness_index := G_horizontal_radiation /
      (solar_radiation * Real.cos (radians solar_zenith))
    let roD := Ro_d clearness_index
    let diffuse_radiation := roD * G_horizontal_radiation
    let beam_radiation := (1 - roD) * G_horizontal_radiation
    let Rb := Real.cos (radians theta) / Real.cos (radians solar_zenith)
    let Ai := beam_radiation / (solar_radiation * Real.cos (radians solar_zenith))
    let beam_radiation_HDKR := (beam_radiation + diffuse_radiation * Ai) * Rb
    let f := Real.sqrt (beam_radiation / G_horizontal_radiation)
    let diffuse_radiation_HDKR := diffuse_radiation * (1 - Ai) *
      ((1 + Real.cos (radians tilt)) / 2) *
      (1 + f * (Real.sin (radians (tilt / 2))) ^ 3)
    let diffuse_radiation_reflected := G_horizontal_radiation *
      ground_reflectance * ((1 - Real.cos (radians tilt)) / 2)
    beam_radiation_HDKR + diffuse_radiation_HDKR + diffuse_radiation_reflected

/-! ## Panel power output (pv_panel.py, `calculate_power_output`, lines 114-137)

The method body reads `self.TCN` and `self.b_p`.  `PVPanel.__init__`
(lines 25-35) assigns only the attributes listed below — in particular
`TC_N` and `Beta_p`, not `TCN` and `b_p` — and no other method creates
attributes, so those two lookups raise `AttributeError` in Python. -/

/-- The instance attributes assigned by `PVPanel.__init__` (the only
attribute-creating code path), in assignment order. -/
def pvPanelAttrNames : List String :=
  ["irradiance_data", "G_0", "G_N", "T_0", "TC_N", "Talpha_N", "Beta_p",
   "P_max", "lifetime", "cost"]

/-- Python attribute lookup `self.<name>` on a `PVPanel` instance:
succeeds exactly on the attributes `__init__` assigned. -/
def pvGetattr (name : String) : Except PyErr Unit :=
  if name ∈ pvPanelAttrNames then .ok () else .error .attributeError

/-- Model of `PVPanel.calculate_power_output`, at the level of column presence
and attribute resolution (the numeric per-row arithmetic is unreachable):
check for the `Calculated_Irradiance` column (`ValueError` if absent), index
the `Temperature` column (`KeyError` if absent), then evaluate
`(self.TCN - self.Talpha_N) / self.G_N` and
`self.P_max * ... * (1 + self.b_p * ...)` left to right, looking each
attribute up in turn; on success the method would append `Power_Output`. -/
def calculate_power_output (cols : List String) : Except PyErr (List String) :=
  if "Calculated_Irradiance" ∉ cols then .error .valueError
  else if "Temperature" ∉ cols then .error .keyError
  else do
    _ ← pvGetattr "TCN"
    _ ← pvGetattr "Talpha_N"
    _ ← pvGetattr "G_N"
    _ ← pvGetattr "P_max"
    _ ← pvGetattr "G_0"
    _ ← pvGetattr "b_p"
    _ ← pvGetattr "T_0"
    pure (cols ++ ["Power_Output"])

/-! ## Day-of-year bookkeeping (pv_panel.py, `calculate_irradiance_vector`,
lines 249-259) -/

/-- Model of `np.cumsum`: running (inclusive) prefix sums. -/
def cumsum (l : List ℤ) : List ℤ := (l.scanl (· + ·) 0).tail

/-- The list `[31, (29 if len(data) > 8760 else 28), 31, 30, ...]` whose
cumulative sums feed the leap-year check. -/
def monthLengthsCheck (nRows : ℕ) : List ℤ :=
  [31, if nRows > 8760 then 29 else 28, 31, 30, 31, 30, 31, 31, 30, 31, 30, 31]

/-- The quantity `year_days = day.iloc[-1] + np.cumsum(...)[month.iloc[-1] - 1] - 1`,
computed from the dataset's row count and the (month, day) of its last row. -/
def year_days (nRows : ℕ) (lastMonth : ℕ) (lastDay : ℤ) : ℤ :=
  lastDay + (cumsum (monthLengthsCheck nRows)).getD (lastMonth - 1) 0 - 1

/-- The per-month day counts `DY_per_MO` selected by the `year_days == 366`
test. -/
def DY_per_MO (nRows : ℕ) (lastMonth : ℕ) (lastDay : ℤ) : List ℤ :=
  if year_days nRows lastMonth lastDay = 366 then
    [31, 29, 31, 30, 31, 30, 31, 31, 30, 31, 30, 31]
  else
    [31, 28, 31, 30, 31, 30, 31, 31, 30, 31, 30, 31]

/-- The list `cum_days = np.cumsum(DY_per_MO) - DY_per_MO` (elementwise): days elapsed
before each month starts. -/
def cum_days (l : List ℤ) : List ℤ := (cumsum l).zipWith (· - ·) l

/-- The quantity `day_of_year = day + cum_days[month - 1]` for one row, under the
dataset-wide month-length table. -/
def day_of_year (nRows : ℕ) (lastMonth : ℕ) (lastDay : ℤ)
    (month : ℕ) (day : ℤ) : ℤ :=
  day + (cum_days (DY_per_MO nRows lastMonth lastDay)).getD (month - 1) 0

/-! ## Column resolution (pv_panel.py, `calculate_irradiance_vector`,
lines 224-240) -/

/-- Python's `str.lower` (ASCII case folding), written as a direct
character-list map so that concrete instances reduce in the kernel. -/
def lowerStr (s : String) : String := String.mk (s.data.map Char.toLower)

/-- Python's substring test `needle in hay` on strings. -/
def pySubstr (needle hay : String) : Bool :=
  (List.range (hay.length + 1)).any fun i =>
    ((hay.data.drop i).take needle.data.length) == needle.data

/-- The keys of the `required_columns` dict, in insertion order. -/
def requiredTokens : List String :=
  ["month", "day", "hour", "horizontal irradiance", "temperature",
   "solar zenith"]

/-- The double loop
`for col in columns: for req in required_columns: if req in col.lower():
required_columns[req] = col`, as a fold over the dataset's column names:
each matching column overwrites the entry for every token it contains. -/
def resolveColumns (cols : List String) : String → Option String :=
  cols.foldl
    (fun acc col => fun req =>
      if pySubstr req (lowerStr col) then some col else acc req)
    (fun _ => none)

/-- The `missing` list built when some entry of `required_columns` is still
`None`, in dict-key order. -/
def missingColumns (cols : List String) : List String :=
  requiredTokens.filter fun req => (resolveColumns cols req).isNone

/-- The column-resolution phase of `calculate_irradiance_vector`: raise
`ValueError` naming the missing semantic fields when any token is unresolved,
otherwise yield the token-to-column assignment. -/
def resolveRequiredColumns (cols : List String) :
    Except (List String) (List (String × String)) :=
  match missingColumns cols with
  | [] => .ok (requiredTokens.filterMap fun req =>
      (resolveColumns cols req).map fun c => (req, c))
  | m :: ms => .error (m :: ms)

/-- What the spec asserts: the FIRST dataset column whose lower-cased name
contains the token.  Kept separate from `resolveColumns` (the translation of
the source) so the two can be compared. -/
def firstMatchingColumn (cols : List String) (req : String) : Option String :=
  cols.find? fun col => pySubstr req (lowerStr col)

/-- What the source actually computes: the LAST matching column. -/
def lastMatchingColumn (cols : List String) (req : String) : Option String :=
  cols.reverse.find? fun col => pySubstr req (lowerStr col)

/-! ## Grid lookup (grid.py, `get_grid_status_and_tariff`, lines 25-43) -/

/-- One row of the grid dataset (`month, day, hour, tariff, status`). -/
structure GridRow where
  month : ℤ
  day : ℤ
  hour : ℤ
  status : ℤ
  tariff : ℚ
deriving DecidableEq, Repr

/-- The boolean row mask
`(month == m) & (day == d) & (hour == h)`. -/
def gridRowMatchesB (m d h : ℤ) (r : GridRow) : Bool :=
  r.month == m && r.day == d && r.hour == h

/-- Model of `Grid.get_grid_status_and_tariff`: filter the dataset by the mask
(preserving row order, as pandas does), return `(None, None)` when the
selection is empty and otherwise the `status` and `tariff` of its row 0. -/
def get_grid_status_and_tariff (rows : List GridRow) (m d h : ℤ) :
    Option ℤ × Option ℚ :=
  match rows.filter (gridRowMatchesB m d h) with
  | [] => (none, none)
  | r :: _ => (some r.status, some r.tariff)

/-! ## System cost aggregation (hybrid_energy_system.py, lines 25-39)

`total_investment_cost` evaluates
`self.pv.investment_cost() + self.battery.investment_cost() +
 self.diesel_gen.investment_cost() + self.grid.investment_cost() +
 self.load.investment_cost()` left to right. -/

/-- The five component classes a `HybridEnergySystem` composes. -/
inductive ComponentClass where
  | pvPanel
  | battery
  | dieselGen
  | grid
  | load
deriving DecidableEq, Repr

/-- The `investment_cost` method table read off from the five class bodies:
`none` when the class does not override `Component`'s abstract
`investment_cost` (PVPanel and Grid define `calculate_investment_cost`
instead), otherwise the number of required parameters after `self`. -/
def investmentCostArity : ComponentClass → Option ℕ
  | .pvPanel => none
  | .battery => some 1
  | .dieselGen => some 1
  | .grid => none
  | .load => some 0

/-- Value returned by the `Load.investment_cost` body: `return 0`. -/
def loadInvestmentCostValue : ℚ := 0

/-- Value returned by the `Grid.calculate_investment_cost` body: `return 0` (never reached from
`total_investment_cost`, which calls `investment_cost`). -/
def gridCalculateInvestmentCostValue : ℚ := 0

/-- Outcome of the zero-argument call `x.investment_cost()` on an instance of
class `c`.  A class that leaves `Component.investment_cost` abstract fails
(its body raises `NotImplementedError`; under ABC the instance could not even
be constructed, a `TypeError` — a failure either way, modelled as
`NotImplementedError`).  A method with required parameters invoked with zero
arguments raises `TypeError`.  The only zero-argument implementation is
`Load.investment_cost`, returning 0. -/
def investmentCostZeroArgCall (c : ComponentClass) : Except PyErr ℚ :=
  match investmentCostArity c with
  | none => .error .notImplementedError
  | some 0 => .ok loadInvestmentCostValue
  | some (_ + 1) => .error .typeError

/-- Model of `HybridEnergySystem.total_investment_cost`: the five calls evaluated left
to right, their sum on success; the first raising call aborts the whole
expression (Python exception propagation = `Except` bind). -/
def total_investment_cost : Except PyErr ℚ := do
  let pv ← investmentCostZeroArgCall .pvPanel
  let bat ← investmentCostZeroArgCall .battery
  let dg ← investmentCostZeroArgCall .dieselGen
  let gr ← investmentCostZeroArgCall .grid
  let ld ← investmentCostZeroArgCall .load
  pure (pv + bat + dg + gr + ld)

/-! ## Battery state (battery.py) -/

/-- The instance attributes `Battery.__init__` assigns. -/
structure BatteryState where
  SOC_min : ℚ
  SOC_max : ℚ
  SOC_init : ℚ
  eff_ch : ℚ
  eff_disch : ℚ
  capacity : ℚ
  min_charging_time : ℚ
  P_B_max : ℚ
  lifetime : ℕ
  cost : ℚ
deriving DecidableEq, Repr

/-- Model of `Battery.__init__`: stores each parameter and derives
`P_B_max = capacity / min_charging_time`. -/
def batteryInit (SOC_min SOC_max SOC_init eff_ch eff_disch capacity
    min_charging_time : ℚ) (lifetime : ℕ) (cost : ℚ) : BatteryState :=
  { SOC_min := SOC_min
    SOC_max := SOC_max
    SOC_init := SOC_init
    eff_ch := eff_ch
    eff_disch := eff_disch
    capacity := capacity
    min_charging_time := min_charging_time
    P_B_max := capacity / min_charging_time
    lifetime := lifetime
    cost := cost }

/-- The mutating operations of `Battery` (its setters; the getters and
`investment_cost` read state without assigning any attribute). -/
inductive BatteryOp where
  | setSOCMin (v : ℚ)
  | setSOCMax (v : ℚ)
  | setSOCInit (v : ℚ)
  | setEffCh (v : ℚ)
  | setEffDisch (v : ℚ)
  | setCapacity (v : ℚ)
  | setMinChargingTime (v : ℚ)
  | setLifetime (v : ℕ)
  | setCost (v : ℚ)
deriving DecidableEq, Repr

/-- Effect of each setter on the battery state, from the source:
`set_capacity` and `set_min_charging_time` reassign `P_B_max` from the
updated fields; every other setter writes only its own field. -/
def batteryStep (b : BatteryState) : BatteryOp → BatteryState
  | .setSOCMin v => { b with SOC_min := v }
  | .setSOCMax v => { b with SOC_max := v }
  | .setSOCInit v => { b with SOC_init := v }
  | .setEffCh v => { b with eff_ch := v }
  | .setEffDisch v => { b with eff_disch := v }
  | .setCapacity v => { b with capacity := v, P_B_max := v / b.min_charging_time }
  | .setMinChargingTime v =>
      { b with min_charging_time := v, P_B_max := b.capacity / v }
  | .setLifetime v => { b with lifetime := v }
  | .setCost v => { b with cost := v }

/-- Whether an operation is one of the two that reassign `P_B_max`. -/
def touchesPBMax : BatteryOp → Bool
  | .setCapacity _ => true
  | .setMinChargingTime _ => true
  | _ => false

/-- The derived-field invariant of C10. -/
def batteryInvariant (b : BatteryState) : Prop :=
  b.P_B_max = b.capacity / b.min_charging_time

/-! ## Claim theorems -/

/-- C1: for every clearness index kt fed to the diffuse-fraction computation
of `radiation_slope_surface`, `Ro_d` equals `1 - 0.249*kt` when `kt ≤ 0.35`,
equals exactly `0.177` when `kt > 0.75`, and equals `1.557 - 1.84*kt` when
`0.35 < kt ≤ 0.75`; the boundary `kt = 0.35` takes the first branch and
`kt = 0.75` the third (linear) branch, not the constant. -/
theorem ro_d_piecewise_branches (kt : ℝ) :
    (kt ≤ 0.35 → Ro_d kt = 1 - 0.249 * kt) ∧
    (kt > 0.75 → Ro_d kt = 0.177) ∧
    (0.35 < kt → kt ≤ 0.75 → Ro_d kt = 1.557 - 1.84 * kt) ∧
    Ro_d (0.35 : ℝ) = 1 - 0.249 * 0.35 ∧
    Ro_d (0.75 : ℝ) = 1.557 - 1.84 * 0.75 := by
  unfold Ro_d
  refine ⟨fun h => by rw [if_pos h], fun h => ?_, fun h1 h2 => ?_, ?_, ?_⟩
  · rw [if_neg (by norm_num; linarith), if_pos h]
  · rw [if_neg (by linarith), if_neg (by simpa using h2)]
  · norm_num
  · norm_num

/-- Witness for C1: the first branch evaluated at the concrete index 0.2. -/
theorem ro_d_piecewise_branches_witness :
    Ro_d (0.2 : ℝ) = 1 - 0.249 * 0.2 :=
  (ro_d_piecewise_branches 0.2).1 (by norm_num)

/-- C2: whenever the horizontal irradiance argument is 0 or the solar zenith
argument is negative, `radiation_slope_surface` returns exactly 0 for all
other inputs (tilt given or defaulted); in the embedding the function is
total, so no error is raised and none of the geometry affects the result. -/
theorem radiation_slope_surface_zero_guard (day time G_horizontal_radiation
    solar_zenith longitude latitude timezone_index : ℝ) (tilt_angle : Option ℝ)
    (surface_azim ground_reflectance : ℝ)
    (h : G_horizontal_radiation = 0 ∨ solar_zenith < 0) :
    radiation_slope_surface day time G_horizontal_radiation solar_zenith
      longitude latitude timezone_index tilt_angle surface_azim
      ground_reflectance = 0 := by
  unfold radiation_slope_surface
  rw [if_pos h]

/-- Witness for C2: zero irradiance at the source's default site parameters. -/
theorem radiation_slope_surface_zero_guard_witness :
    radiation_slope_surface 172 14.5 0 30 33.9009 35.4811 2 none 0 0.6 = 0 :=
  radiation_slope_surface_zero_guard 172 14.5 0 30 33.9009 35.4811 2 none 0 0.6
    (Or.inl rfl)

/-- C3 (refuting evaluation): for the hourly leap-year dataset — 8784 rows,
last row (month 12, day 31) — the `year_days` check computes 396, not 366,
so the month-length table selected for ALL day-of-year computations is the
non-leap one (February = 28): `day_of_year` for (month 3, day 1) is 60,
not the 61 that February = 29 would give.  The 8760-row dataset computes
`year_days` = 395 and also uses February = 28. -/
theorem leap_year_detection_never_fires :
    year_days 8784 12 31 = 396 ∧
    DY_per_MO 8784 12 31 = [31, 28, 31, 30, 31, 30, 31, 31, 30, 31, 30, 31] ∧
    day_of_year 8784 12 31 3 1 = 60 ∧
    year_days 8760 12 31 = 395 ∧
    DY_per_MO 8760 12 31 = [31, 28, 31, 30, 31, 30, 31, 31, 30, 31, 30, 31] := by
  decide

/-- Helper: for a positive rate and a positive lifetime the annuity
denominator `1 - (1+r)^(-lifetime)` is positive. -/
lemma annuity_denom_pos {α : Type} [LinearOrderedField α] {r : α} (h0 : 0 < r)
    {n : ℕ} (hn : 1 ≤ n) : 0 < 1 - (1 + r) ^ (-(n : ℤ)) := by
  have h1 : (1 : α) < 1 + r := by linarith
  have h2 : (1 : α) < (1 + r) ^ n := one_lt_pow₀ h1 (by omega)
  rw [zpow_neg, zpow_natCast]
  have h3 : ((1 + r) ^ n)⁻¹ < 1 := inv_lt_one_of_one_lt₀ h2
  linarith

/-- C4 (refutation): `Battery.investment_cost` performs NO domain validation:
at `interest_rate = 1` (default cost 10000, lifetime 10) it returns the
annuity value `10240000/1023` instead of raising anything. -/
theorem battery_cost_no_validation_counterexample :
    batteryInvestmentCost 10000 10 1 = .ok (10240000 / 1023) := by
  rw [batteryInvestmentCost, if_neg (by norm_num)]
  norm_num [annuityFormula]

/-- C4 amended: only the PV panel validates the interest rate.
`PVPanel.calculate_investment_cost` raises `ValueError` for every rate outside
the open interval (0,1) and returns `cost*r/(1-(1+r)^(-lifetime))` for every
rate inside it (positive lifetime); `Battery.investment_cost` returns that
formula for ANY rate whose denominator is nonzero — in particular `r = 1` —
and at `r = 0` raises `ZeroDivisionError`, not a domain validation error. -/
theorem investment_cost_validation (cost : ℚ) (lifetime : ℕ) (r : ℚ) :
    (¬(0 < r ∧ r < 1) →
      calculate_investment_cost cost lifetime r = .error .valueError) ∧
    (0 < r ∧ r < 1 → 1 ≤ lifetime →
      calculate_investment_cost cost lifetime r =
        .ok (annuityFormula cost lifetime r)) ∧
    ((1 - (1 + r) ^ (-(lifetime : ℤ))) ≠ 0 →
      batteryInvestmentCost cost lifetime r =
        .ok (annuityFormula cost lifetime r)) ∧
    batteryInvestmentCost cost lifetime 0 = .error .zeroDivisionError := by
  refine ⟨fun h => by rw [calculate_investment_cost, if_pos h],
    fun h hl => ?_, fun h => by rw [batteryInvestmentCost, if_neg h],
    by rw [batteryInvestmentCost, if_pos (by norm_num)]⟩
  have hd : 0 < 1 - (1 + r) ^ (-(lifetime : ℤ)) := annuity_denom_pos h.1 hl
  rw [calculate_investment_cost, if_neg (by simpa using h), if_neg (by linarith)]

/-- Witness for C4: the PV panel at cost 750, lifetime 25, rate 1/2 returns
the annuity value. -/
theorem investment_cost_validation_witness :
    calculate_investment_cost 750 25 (1 / 2) =
      .ok (annuityFormula 750 25 (1 / 2)) :=
  (investment_cost_validation 750 25 (1 / 2)).2.1 ⟨by norm_num, by norm_num⟩
    (by norm_num)

/-- C5 (refuting evaluation): on a dataset that has both the
`Calculated_Irradiance` and the `Temperature` columns,
`calculate_power_output` raises `AttributeError` instead of appending a
`Power_Output` column: the body reads `self.TCN` and `self.b_p`, but
`__init__` assigned `TC_N` and `Beta_p`. -/
theorem calculate_power_output_attribute_error :
    "TCN" ∉ pvPanelAttrNames ∧ "b_p" ∉ pvPanelAttrNames ∧
    "TC_N" ∈ pvPanelAttrNames ∧ "Beta_p" ∈ pvPanelAttrNames ∧
    calculate_power_output ["Month", "Day", "Hour", "Horizontal Irradiance",
      "Temperature", "Solar Zenith", "Calculated_Irradiance"] =
      .error .attributeError :=
  ⟨by decide, by decide, by decide, by decide, by rfl⟩

/-- C6 (refuting evaluation): `total_investment_cost` can never return a sum.
Its very first call, `self.pv.investment_cost()`, resolves to `Component`'s
abstract method (PVPanel defines `calculate_investment_cost` instead), so the
aggregation fails as a whole — even though the `Load` and `Grid` cost bodies
do return 0 as the claim says (and the battery/diesel calls would fail too,
their one required argument never being passed). -/
theorem total_investment_cost_always_raises :
    total_investment_cost = .error .notImplementedError ∧
    investmentCostZeroArgCall .battery = .error .typeError ∧
    investmentCostZeroArgCall .dieselGen = .error .typeError ∧
    investmentCostZeroArgCall .load = .ok 0 ∧
    loadInvestmentCostValue = 0 ∧
    gridCalculateInvestmentCostValue = 0 :=
  ⟨rfl, rfl, rfl, rfl, rfl, rfl⟩

/-- Helper: applying the column-resolution fold returns the last matching
column when one exists and otherwise falls back to the accumulator. -/
lemma resolve_foldl_aux (req : String) (cols : List String)
    (acc : String → Option String) :
    (cols.foldl (fun acc col => fun r =>
        if pySubstr r (lowerStr col) then some col else acc r) acc) req =
      ((cols.reverse.find? fun col => pySubstr req (lowerStr col)).or
        (acc req)) := by
  induction cols generalizing acc with
  | nil => simp
  | cons c cs ih =>
      simp only [List.foldl_cons, List.reverse_cons]
      rw [ih, List.find?_append]
      cases cs.reverse.find? (fun col => pySubstr req (lowerStr col)) with
      | some x => simp
      | none => by_cases hc : pySubstr req (lowerStr c) <;> simp [List.find?, hc]

/-- C7 (refutation): with dataset columns `["month a", "month b"]` — both
containing the token `month` — the source resolves `month` to the LAST
matching column `month b`, whereas the claim's first-match rule picks
`month a`. -/
theorem resolve_columns_counterexample :
    resolveColumns ["month a", "month b"] "month" = some "month b" ∧
    firstMatchingColumn ["month a", "month b"] "month" = some "month a" ∧
    resolveColumns ["month a", "month b"] "month" ≠
      firstMatchingColumn ["month a", "month b"] "month" := by
  refine ⟨by decide, by decide, by decide⟩

/-- C7 amended: each required semantic token is resolved, case-insensitively
and by substring containment, to the LAST dataset column whose lower-cased
name contains it (later matching columns overwrite earlier ones); if any
token cannot be resolved the call fails with a validation error naming
exactly the missing semantic fields, in dict-key order. -/
theorem resolve_columns_amended (cols : List String) :
    (∀ req, resolveColumns cols req = lastMatchingColumn cols req) ∧
    (missingColumns cols = [] →
      resolveRequiredColumns cols = .ok (requiredTokens.filterMap fun req =>
        (resolveColumns cols req).map fun c => (req, c))) ∧
    (∀ m ms, missingColumns cols = m :: ms →
      resolveRequiredColumns cols = .error (m :: ms)) := by
  refine ⟨fun req => ?_, fun h => ?_, fun m ms h => ?_⟩
  · rw [resolveColumns, resolve_foldl_aux, lastMatchingColumn, Option.or_none]
  · unfold resolveRequiredColumns
    split
    · rfl
    · next m ms heq => rw [h] at heq; cases heq
  · unfold resolveRequiredColumns
    split
    · next heq => rw [h] at heq; cases heq
    · next m2 ms2 heq =>
        rw [h] at heq
        injection heq with h1 h2
        rw [h1, h2]

/-- Witness for C7: on an empty column list every token is missing, and the
call fails naming all six semantic fields in order. -/
theorem resolve_columns_amended_witness :
    resolveRequiredColumns [] = .error ["month", "day", "hour",
      "horizontal irradiance", "temperature", "solar zenith"] :=
  (resolve_columns_amended []).2.2 "month"
    ["day", "hour", "horizontal irradiance", "temperature", "solar zenith"]
    (by decide)

/-- C8: for every grid dataset and (month, day, hour) triple, the lookup
returns the (status, tariff) of the FIRST row matching the triple exactly,
and returns `(None, None)` — a value, not an exception — whenever no row
matches. -/
theorem grid_lookup_first_match (rows : List GridRow) (m d h : ℤ) :
    (rows.find? (gridRowMatchesB m d h) = none →
      get_grid_status_and_tariff rows m d h = (none, none)) ∧
    (∀ r, rows.find? (gridRowMatchesB m d h) = some r →
      get_grid_status_and_tariff rows m d h = (some r.status, some r.tariff))
    := by
  induction rows with
  | nil => exact ⟨fun _ => rfl, fun r hr => by simp [List.find?] at hr⟩
  | cons a as ih =>
      by_cases hp : gridRowMatchesB m d h a
      · refine ⟨fun hn => ?_, fun r hr => ?_⟩
        · simp [List.find?_cons, hp] at hn
        · simp only [List.find?_cons, hp, if_pos] at hr
          simp only [Option.some.injEq] at hr
          subst hr
          simp [get_grid_status_and_tariff, List.filter_cons, hp]
      · refine ⟨fun hn => ?_, fun r hr => ?_⟩
        · simp only [List.find?_cons, hp, if_neg, Bool.false_eq_true,
            not_false_eq_true, List.find?_cons_of_neg] at hn
          have := ih.1 hn
          simpa [get_grid_status_and_tariff, List.filter_cons, hp] using this
        · simp only [List.find?_cons, hp, Bool.false_eq_true,
            not_false_eq_true, List.find?_cons_of_neg] at hr
          have := ih.2 r hr
          simpa [get_grid_status_and_tariff, List.filter_cons, hp] using this

/-- Witness for C8: an empty grid dataset yields `(None, None)`. -/
theorem grid_lookup_first_match_witness :
    get_grid_status_and_tariff [] 1 2 3 = (none, none) :=
  (grid_lookup_first_match [] 1 2 3).1 rfl

/-- C10: after construction and after every setter call, a battery's
`P_B_max` equals `capacity / min_charging_time`; the only operations that
reassign `P_B_max` are `set_capacity` and `set_min_charging_time` — every
other setter leaves it unchanged. -/
theorem battery_pbmax_invariant :
    (∀ SOC_min SOC_max SOC_init eff_ch eff_disch capacity
        min_charging_time : ℚ, ∀ lifetime : ℕ, ∀ cost : ℚ,
      batteryInvariant (batteryInit SOC_min SOC_max SOC_init eff_ch eff_disch
        capacity min_charging_time lifetime cost)) ∧
    (∀ (b : BatteryState) (op : BatteryOp),
      batteryInvariant b → batteryInvariant (batteryStep b op)) ∧
    (∀ (b : BatteryState) (op : BatteryOp),
      touchesPBMax op = false → (batteryStep b op).P_B_max = b.P_B_max) := by
  refine ⟨fun _ _ _ _ _ _ _ _ _ => rfl, fun b op hb => ?_, fun b op hop => ?_⟩
  · cases op <;> first
      | exact hb
      | rfl
  · cases op <;> first
      | rfl
      | exact absurd hop (by simp [touchesPBMax])

/-- Witness for C10: a freshly constructed battery (the source's default
parameters) satisfies the invariant, keeps satisfying it after `set_cost`,
and `set_cost` leaves `P_B_max` untouched. -/
theorem battery_pbmax_invariant_witness :
    (batteryStep (batteryInit 0.2 0.9 0.5 0.95 0.95 100 4 10 10000)
        (.setCost 5)).P_B_max =
      (batteryInit 0.2 0.9 0.5 0.95 0.95 100 4 10 10000).P_B_max :=
  battery_pbmax_invariant.2.2
    (batteryInit 0.2 0.9 0.5 0.95 0.95 100 4 10 10000) (.setCost 5) rfl

/-! ## Analysis helpers for the annuity formula -/

/-- Sum of the discount factors `(1+r)^-1 + ... + (1+r)^-n`, written with
inverses of natural powers.  The reciprocal of this sum is the annuity
factor. -/
def geomSumInv {α : Type} [LinearOrderedField α] (n : ℕ) (r : α) : α :=
  ∑ j ∈ Finset.range n, ((1 + r) ^ (j + 1))⁻¹

/-- Helper: the annuity denominator factors as
`1 - (1+r)^(-n) = r * geomSumInv n r`. -/
lemma geomSumInv_mul {α : Type} [LinearOrderedField α] {r : α} (hr : 1 + r ≠ 0)
    (n : ℕ) : r * geomSumInv n r = 1 - (1 + r) ^ (-(n : ℤ)) := by
  induction n with
  | zero => simp [geomSumInv]
  | succ n ih =>
      rw [geomSumInv, Finset.sum_range_succ, ← geomSumInv, mul_add, ih]
      rw [zpow_neg, zpow_natCast, zpow_neg, zpow_natCast]
      have hpow : ((1 : α) + r) ^ (n + 1) ≠ 0 := pow_ne_zero _ hr
      have hpow2 : ((1 : α) + r) ^ n ≠ 0 := pow_ne_zero _ hr
      field_simp
      ring

/-- Helper: for a positive rate the annuity value is the cost divided by the
sum of discount factors. -/
lemma annuity_eq_div {r : ℝ} (hr : 0 < r) (cost : ℝ) (n : ℕ) :
    annuityFormula cost n r = cost / geomSumInv n r := by
  have h1 : (1 : ℝ) + r ≠ 0 := by linarith
  rw [annuityFormula, ← geomSumInv_mul h1 n, mul_comm cost r,
    mul_div_mul_left _ _ (ne_of_gt hr)]

/-- Helper: the discount-factor sum is positive for a positive rate. -/
lemma geomSumInv_pos {r : ℝ} (hr : 0 < r) {n : ℕ} (hn : 1 ≤ n) :
    0 < geomSumInv n r :=
  Finset.sum_pos (fun j _ => inv_pos.2 (pow_pos (by linarith) _))
    (Finset.nonempty_range_iff.2 (by omega))

/-- Helper: the discount-factor sum strictly decreases in the rate. -/
lemma geomSumInv_lt {r1 r2 : ℝ} (h1 : 0 < r1) (h12 : r1 < r2) {n : ℕ}
    (hn : 1 ≤ n) : geomSumInv n r2 < geomSumInv n r1 := by
  apply Finset.sum_lt_sum_of_nonempty (Finset.nonempty_range_iff.2 (by omega))
  intro j _
  have hp1 : (0 : ℝ) < (1 + r1) ^ (j + 1) := pow_pos (by linarith) _
  have hlt : (1 + r1) ^ (j + 1) < (1 + r2) ^ (j + 1) :=
    pow_lt_pow_left₀ (by linarith) (by linarith) (by omega)
  exact inv_strictAnti₀ hp1 hlt

/-- Helper: the discount-factor sum tends to `n` as the rate tends to 0 from
above. -/
lemma geomSumInv_tendsto (n : ℕ) :
    Filter.Tendsto (fun r : ℝ => geomSumInv n r)
      (nhdsWithin 0 (Set.Ioi 0)) (nhds (n : ℝ)) := by
  have h : ∀ j ∈ Finset.range n,
      Filter.Tendsto (fun r : ℝ => ((1 + r) ^ (j + 1))⁻¹)
        (nhdsWithin 0 (Set.Ioi 0)) (nhds 1) := by
    intro j _
    have hc : ContinuousAt (fun r : ℝ => ((1 + r) ^ (j + 1))⁻¹) 0 := by
      have hb : ContinuousAt (fun r : ℝ => (1 + r) ^ (j + 1)) 0 :=
        (continuousAt_const.add continuousAt_id).pow _
      exact hb.inv₀ (by norm_num)
    have h2 : Filter.Tendsto (fun r : ℝ => ((1 + r) ^ (j + 1))⁻¹)
        (nhdsWithin 0 (Set.Ioi 0)) (nhds (((1 + (0 : ℝ)) ^ (j + 1))⁻¹)) :=
      hc.tendsto.mono_left nhdsWithin_le_nhds
    simpa using h2
  have := tendsto_finset_sum (Finset.range n) h
  simpa [geomSumInv] using this

/-- C9: for fixed positive cost and positive integer lifetime, the annuity
investment cost computed by `PVPanel.calculate_investment_cost` and
`Battery.investment_cost` is strictly increasing in the interest rate over
(0, 1), and tends to `cost / lifetime` as the rate tends to 0 from above. -/
theorem annuity_monotone_and_limit (cost : ℝ) (lifetime : ℕ) (hc : 0 < cost)
    (hl : 1 ≤ lifetime) :
    (∀ r1 r2 : ℝ, 0 < r1 → r1 < r2 → r2 < 1 →
      annuityFormula cost lifetime r1 < annuityFormula cost lifetime r2) ∧
    Filter.Tendsto (fun r : ℝ => annuityFormula cost lifetime r)
      (nhdsWithin 0 (Set.Ioi 0)) (nhds (cost / lifetime)) := by
  constructor
  · intro r1 r2 h1 h12 h2
    have h1p : 0 < r2 := lt_trans h1 h12
    rw [annuity_eq_div h1, annuity_eq_div h1p]
    exact div_lt_div_of_pos_left hc (geomSumInv_pos h1p hl)
      (geomSumInv_lt h1 h12 hl)
  · have hev : (fun r : ℝ => cost / geomSumInv lifetime r)
        =ᶠ[nhdsWithin 0 (Set.Ioi 0)]
          fun r => annuityFormula cost lifetime r := by
      filter_upwards [self_mem_nhdsWithin] with r hr
      exact (annuity_eq_div hr cost lifetime).symm
    have hne : (lifetime : ℝ) ≠ 0 := Nat.cast_ne_zero.mpr (by omega)
    have hdiv : Filter.Tendsto (fun r : ℝ => cost / geomSumInv lifetime r)
        (nhdsWithin 0 (Set.Ioi 0)) (nhds (cost / lifetime)) :=
      Filter.Tendsto.div tendsto_const_nhds (geomSumInv_tendsto lifetime) hne
    exact hdiv.congr' hev

/-- Witness for C9: for cost 1 and lifetime 1 the annuity value at rate 1/4
is strictly below the value at rate 1/2. -/
theorem annuity_monotone_and_limit_witness :
    annuityFormula (1 : ℝ) 1 (1 / 4) < annuityFormula (1 : ℝ) 1 (1 / 2) :=
  (annuity_monotone_and_limit 1 1 one_pos (le_refl 1)).1 (1 / 4) (1 / 2)
    (by norm_num) (by norm_num) (by norm_num)
